import Mathlib

set_option maxHeartbeats 2000000
set_option maxRecDepth 20000

/-! Shallow embedding of `meshproc.cpp`, a C++ program that reads a
triangle-mesh file (binary/ASCII STL or ASCII PLY) and prints the number
of parsed triangles.

Modelling conventions:
* A file is a byte stream, modelled as `List Char` with one character per
  byte (code point below 256); an open `std::ifstream` is an `IStream`
  carrying the whole file, the current read position and the `eofbit`
  flag.
* The program's `main` enables iostream exceptions for `failbit` and
  `badbit` (`ifs.exceptions(badbit | failbit)`), so every stream
  operation is modelled in the `Except CppError` monad: an extraction
  that would set `failbit` yields `Except.error CppError.iosFailure`.
  Setting only `eofbit` (a successful extraction that consumed the last
  byte) does not throw; it is recorded in the `eof` field.
* `float`/`double` arithmetic is modelled over an arbitrary `Field`
  (instantiated at `ℚ` and `ℝ` in the theorems); numeric tokens are
  decimal numerals whose value is represented exactly in `ℚ`.
  `std::sqrt` is passed as an explicit function parameter `sqrt` so that
  the same definitions serve both the executable `ℚ` instance and the
  real-number instance used for the normal-derivation property.
-/

/-- Outcomes that abort a run of the program.  `iosFailure` is
`std::ios_base::failure` (thrown because `main` enables `failbit`
exceptions); `expectedElementDefinition` is the program's own
`PLY_Expected_Element_Definition_Error`; `outOfRange` is
`std::out_of_range` (thrown by `map::at` and by the explicit face-index
throw); `domainError` is `std::domain_error` carrying the offending face
index-list length; `undefinedBehavior` marks a C++ operation with no
defined result: an out-of-range unchecked `std::vector::operator[]` read
or a float-to-`size_t` cast whose truncated value does not fit. -/
inductive CppError where
  | iosFailure
  | expectedElementDefinition
  | outOfRange (what : String)
  | domainError (found : Nat)
  | undefinedBehavior
deriving DecidableEq

deriving instance DecidableEq for Except

/-- The source's `Vec3f`: three scalar components. -/
structure Vec3 (α : Type) where
  x : α
  y : α
  z : α
deriving DecidableEq

/-- The source's `Vec3f::cross`. -/
def Vec3.cross {α : Type} [Mul α] [Sub α] (a b : Vec3 α) : Vec3 α :=
  ⟨a.y * b.z - a.z * b.y, a.z * b.x - a.x * b.z, a.x * b.y - a.y * b.x⟩

/-- The source's `Vec3f::operator-`. -/
def Vec3.sub {α : Type} [Sub α] (a b : Vec3 α) : Vec3 α :=
  ⟨a.x - b.x, a.y - b.y, a.z - b.z⟩

instance {α : Type} [Sub α] : Sub (Vec3 α) := ⟨Vec3.sub⟩

/-- The source's `Vec3f::calc_magnitude`, with `std::sqrt` passed as the
parameter `sqrt`. -/
def Vec3.magnitude {α : Type} [Add α] [Mul α] (sqrt : α → α) (v : Vec3 α) : α :=
  sqrt (v.x * v.x + v.y * v.y + v.z * v.z)

/-- The source's `Vec3f::normalize`: divide each component by the
magnitude. -/
def Vec3.normalize {α : Type} [Add α] [Mul α] [Div α] (sqrt : α → α) (v : Vec3 α) : Vec3 α :=
  let m := v.magnitude sqrt
  ⟨v.x / m, v.y / m, v.z / m⟩

/-- The source's `Triangle`: a normal and three vertices (the
`std::array<Vec3f, 3>` is modelled as three fields in order). -/
structure Triangle (α : Type) where
  normal : Vec3 α
  v0 : Vec3 α
  v1 : Vec3 α
  v2 : Vec3 α
deriving DecidableEq

/-- A triangle as stored by the STL decoder.  The binary path fills the
48-byte `Triangle` struct with `ifs.read((char *)&t, sizeof(Triangle))`;
those raw bytes are kept as read, since no verified property inspects
the IEEE-754 interpretation of the twelve floats.  The ASCII path fills
the struct from parsed numeric tokens. -/
inductive STriangle where
  | ofBytes (bytes : List Char)
  | ofValues (t : Triangle ℚ)
deriving DecidableEq

/-- An open input stream: the whole file, the current read position, and
the `eofbit` flag.  `failbit`/`badbit` need no field because reaching
them throws (modelled by `Except.error`). -/
structure IStream where
  file : List Char
  pos : Nat
  eof : Bool
deriving DecidableEq

/-- Bytes from the current position to the end of the file. -/
def IStream.rest (st : IStream) : List Char := st.file.drop st.pos

/-- The source's `ifs.seekg(p, std::ifstream::beg)`: moves the read
position and (since C++11) clears `eofbit`. -/
def IStream.seekg (st : IStream) (p : Nat) : IStream := ⟨st.file, p, false⟩

/-- Whitespace for `operator>>` in the default locale: space, tab,
newline, carriage return, vertical tab, form feed. -/
def isSpace (c : Char) : Bool :=
  c = ' ' || c = '\t' || c = '\n' || c = '\r' || c.toNat = 11 || c.toNat = 12

/-- The source's `ifs >> token` for a `std::string`: skip whitespace,
then extract the maximal run of non-whitespace characters.  Fails
(`failbit`) when the stream is already at `eof` or only whitespace
remains; sets `eofbit` when extraction consumed the last byte. -/
def readToken (st : IStream) : Except CppError (String × IStream) :=
  if st.eof then .error .iosFailure
  else
    let r := st.rest
    let r1 := r.dropWhile isSpace
    if r1.isEmpty then .error .iosFailure
    else
      let tok := r1.takeWhile (fun c => !(isSpace c))
      let r2 := r1.drop tok.length
      .ok (String.mk tok, ⟨st.file, st.pos + (r.length - r2.length), r2.isEmpty⟩)

/-- Numeric value of a run of decimal digit characters. -/
def digitsToNat (ds : List Char) : Nat :=
  ds.foldl (fun n c => 10 * n + (c.toNat - 48)) 0

/-- Split off the maximal leading run of decimal digits. -/
def splitDigits (cs : List Char) : List Char × List Char :=
  (cs.takeWhile Char.isDigit, cs.dropWhile Char.isDigit)

/-- Decimal floating-point numeral as accepted by `num_get` for
`operator>>` on `float`/`double` (hexadecimal and `inf`/`nan` forms are
not used by any input considered here): an optional sign, digits with an
optional fractional part (at least one digit overall), and an optional
exponent that must contain at least one digit.  Returns the exact value
and the unconsumed input, or `none` when no numeral can be converted
(`failbit`). -/
def parseFloatChars (cs : List Char) : Option (ℚ × List Char) :=
  let sign : ℚ × List Char :=
    match cs with
    | '-' :: t => (-1, t)
    | '+' :: t => (1, t)
    | _ => (1, cs)
  let ip := splitDigits sign.2
  let frac : List Char × List Char :=
    match ip.2 with
    | '.' :: t => splitDigits t
    | _ => ([], ip.2)
  if ip.1.isEmpty && frac.1.isEmpty then none
  else
    let mant : ℚ := (digitsToNat ip.1 : ℚ) + (digitsToNat frac.1 : ℚ) / ((10 : ℚ) ^ frac.1.length)
    match frac.2 with
    | c :: t =>
      if c = 'e' ∨ c = 'E' then
        let esign : Bool × List Char :=
          match t with
          | '-' :: t2 => (true, t2)
          | '+' :: t2 => (false, t2)
          | _ => (false, t)
        let ed := splitDigits esign.2
        if ed.1.isEmpty then none
        else
          let e := digitsToNat ed.1
          let v := if esign.1 then mant / ((10 : ℚ) ^ e) else mant * ((10 : ℚ) ^ e)
          some (sign.1 * v, ed.2)
      else some (sign.1 * mant, frac.2)
    | [] => some (sign.1 * mant, [])

/-- The source's `ifs >> x` for a `float`/`double` field: skip
whitespace, convert a numeral, fail (`failbit`) when none converts. -/
def readDouble (st : IStream) : Except CppError (ℚ × IStream) :=
  if st.eof then .error .iosFailure
  else
    let r := st.rest
    let r1 := r.dropWhile isSpace
    match parseFloatChars r1 with
    | none => .error .iosFailure
    | some (q, r2) => .ok (q, ⟨st.file, st.pos + (r.length - r2.length), r2.isEmpty⟩)

/-- The source's `ifs >> n` for a `size_t` / `uint32_t`-sized unsigned
field: skip whitespace and convert a run of decimal digits; no digit or
an out-of-range value sets `failbit`.  (The inputs considered here use
plain unsigned decimal numerals.) -/
def readSizeT (st : IStream) : Except CppError (Nat × IStream) :=
  if st.eof then .error .iosFailure
  else
    let r := st.rest
    let r1 := r.dropWhile isSpace
    let d := splitDigits r1
    if d.1.isEmpty then .error .iosFailure
    else if digitsToNat d.1 ≥ 2 ^ 64 then .error .iosFailure
    else .ok (digitsToNat d.1, ⟨st.file, st.pos + (r.length - d.2.length), d.2.isEmpty⟩)

/-- The source's `ifs.read(buf, n)`: an unformatted read of exactly `n`
bytes.  Reading fewer than `n` bytes sets `failbit` (throws); reading
exactly the remaining bytes does not set `eofbit`. -/
def readBytes (n : Nat) (st : IStream) : Except CppError (List Char × IStream) :=
  if st.eof then .error .iosFailure
  else if n ≤ st.rest.length then .ok (st.rest.take n, ⟨st.file, st.pos + n, st.eof⟩)
  else .error .iosFailure

/-- Little-endian unsigned 32-bit value of four bytes. -/
def le32 (cs : List Char) : Nat :=
  match cs with
  | [b0, b1, b2, b3] => b0.toNat + 256 * b1.toNat + 65536 * b2.toNat + 16777216 * b3.toNat
  | _ => 0

/-- The source's `ifs.read((char *)&num_triangles, sizeof(uint32_t))`:
four bytes interpreted as a little-endian unsigned 32-bit integer. -/
def readU32 (st : IStream) : Except CppError (Nat × IStream) :=
  match readBytes 4 st with
  | .error e => .error e
  | .ok (bs, st1) => .ok (le32 bs, st1)

/-- The triangle count a purported binary STL file declares: the
little-endian unsigned 32-bit integer stored at byte offset 80. -/
def declaredCount (file : List Char) : Nat := le32 ((file.drop 80).take 4)

/-- The source's `skip_line`:
`ifs.ignore(std::numeric_limits<std::streamsize>::max(), '\n')`.
Consumes up to and including the next newline; hitting end of file first
sets `eofbit` (but not `failbit`); calling it on a stream already at
`eof` fails. -/
def skipLine (st : IStream) : Except CppError IStream :=
  if st.eof then .error .iosFailure
  else
    let r := st.rest
    let r1 := r.dropWhile (fun c => c != '\n')
    match r1 with
    | [] => .ok ⟨st.file, st.file.length, true⟩
    | _ :: t => .ok ⟨st.file, st.pos + (r.length - t.length), false⟩

/-- The source's `read_binary_stl`: read `n` records, each the 48-byte
`Triangle` struct followed by a 2-byte attribute count that is read and
discarded. -/
def read_binary_stl : Nat → IStream → List STriangle → Except CppError (List STriangle × IStream)
  | 0, st, tris => .ok (tris, st)
  | n + 1, st, tris =>
    match readBytes 48 st with
    | .error e => .error e
    | .ok (bs, st1) =>
      match readBytes 2 st1 with
      | .error e => .error e
      | .ok (_, st2) => read_binary_stl n st2 (tris ++ [.ofBytes bs])

/-- Three whitespace-separated numeric fields, as in
`ifs >> v.x >> v.y >> v.z`. -/
def readVec3 (st : IStream) : Except CppError (Vec3 ℚ × IStream) := do
  let (x, st) ← readDouble st
  let (y, st) ← readDouble st
  let (z, st) ← readDouble st
  .ok (⟨x, y, z⟩, st)

/-- Body of the `token == "facet"` branch of the source's
`read_ascii_stl`: the keyword `normal` and its three numbers, `outer`,
`loop`, three `vertex` lines, `endloop`, `endfacet`. -/
def readFacet (st : IStream) : Except CppError (Triangle ℚ × IStream) := do
  let (_, st) ← readToken st        -- expecting "normal"
  let (n, st) ← readVec3 st
  let (_, st) ← readToken st        -- expecting "outer"
  let (_, st) ← readToken st        -- expecting "loop"
  let (_, st) ← readToken st        -- expecting "vertex"
  let (a, st) ← readVec3 st
  let (_, st) ← readToken st        -- expecting "vertex"
  let (b, st) ← readVec3 st
  let (_, st) ← readToken st        -- expecting "vertex"
  let (c, st) ← readVec3 st
  let (_, st) ← readToken st        -- expecting "endloop"
  let (_, st) ← readToken st        -- expecting "endfacet"
  .ok (⟨n, a, b, c⟩, st)

/-- The source's `read_ascii_stl` loop: while the stream is good, read a
token; the keyword `facet` starts a triangle, anything else is skipped.
The fuel argument only bounds the recursion; every iteration consumes at
least one byte, so callers pass `file.length + 1`, which can never be
exhausted. -/
def read_ascii_stl : Nat → IStream → List STriangle → Except CppError (List STriangle × IStream)
  | 0, _, _ => .error .iosFailure
  | fuel + 1, st, tris =>
    if st.eof then .ok (tris, st)
    else
      match readToken st with
      | .error e => .error e
      | .ok (tok, st1) =>
        if tok = "facet" then
          match readFacet st1 with
          | .error e => .error e
          | .ok (t, st2) => read_ascii_stl fuel st2 (tris ++ [.ofValues t])
        else read_ascii_stl fuel st1 tris

/-- Which branch of `read_stl` handled the file. -/
inductive StlPath where
  | emptyFile
  | binaryPath
  | asciiPath
deriving DecidableEq

/-- Result of the source's `read_stl`: the branch taken, the decoded
triangles, and the stream position when decoding finished (the total
number of bytes consumed from the start of the file). -/
structure StlRes where
  path : StlPath
  triangles : List STriangle
  finalPos : Nat
deriving DecidableEq

/-- The source's `read_stl`: an empty file reports "Empty file"; else
seek past the 80-byte header, read the 4-byte triangle count `n`, and
decode as binary exactly when the file size equals
`80 + 4 + n * (sizeof(Triangle) + sizeof(uint16_t))` — the `Triangle`
struct is twelve tightly packed 4-byte floats, so `sizeof(Triangle)` is
48 — otherwise rewind to offset 0 and decode as ASCII. -/
def read_stl (file : List Char) : Except CppError StlRes :=
  if file.length = 0 then .ok ⟨.emptyFile, [], 0⟩
  else
    let st := IStream.seekg ⟨file, 0, false⟩ 80
    match readU32 st with
    | .error e => .error e
    | .ok (n, st1) =>
      if file.length = 80 + 4 + n * (48 + 2) then
        match read_binary_stl n st1 [] with
        | .error e => .error e
        | .ok (tris, st2) => .ok ⟨.binaryPath, tris, st2.pos⟩
      else
        match read_ascii_stl (file.length + 1) (st1.seekg 0) [] with
        | .error e => .error e
        | .ok (tris, st2) => .ok ⟨.asciiPath, tris, st2.pos⟩

/-- The source's `PLY_Property_Definition::Type`. -/
inductive PLYType where
  | list
  | scalar
deriving DecidableEq

/-- The source's `PLY_Property_Definition`: a kind tag and a name. -/
structure PLY_Property_Definition where
  type : PLYType
  name : String
deriving DecidableEq

/-- The source's `PLY_Element_Definition`: a name, a declared record
count, and the declared properties in order. -/
structure PLY_Element_Definition where
  name : String
  count : Nat
  property_definitions : List PLY_Property_Definition
deriving DecidableEq

/-- The source's `PLY_Property`: the accumulated numeric values (length
one for a scalar, the read length for a list). -/
structure PLY_Property where
  values : List ℚ
deriving DecidableEq

/-- The source's `PLY_Element`: a record mapping property names to
parsed values.  The `String_Map` (a hash map keyed by name) is modelled
as an association list with at most one entry per key; the source never
iterates a map, it only looks names up, so hash order is irrelevant. -/
structure PLY_Element where
  property_map : List (String × PLY_Property)
deriving DecidableEq

/-- The source's `Parsed_PLY`: element name to the list of its parsed
records. -/
structure Parsed_PLY where
  elements_map : List (String × List PLY_Element)
deriving DecidableEq

/-- Lookup in a name-keyed map (`map.find` / `map.at`). -/
def mapFind {β : Type} : List (String × β) → String → Option β
  | [], _ => none
  | (k1, v) :: t, k => if k1 = k then some v else mapFind t k

/-- Write-through of `map[k] = v`: replace the entry for `k`, or insert
one when absent (as `operator[]` default-inserts). -/
def mapSet {β : Type} : List (String × β) → String → β → List (String × β)
  | [], k, v => [(k, v)]
  | (k1, v1) :: t, k, v => if k1 = k then (k, v) :: t else (k1, v1) :: mapSet t k v

/-- Read `n` whitespace-separated numeric values. -/
def readDoubles : Nat → IStream → Except CppError (List ℚ × IStream)
  | 0, st => .ok ([], st)
  | n + 1, st =>
    match readDouble st with
    | .error e => .error e
    | .ok (v, st1) =>
      match readDoubles n st1 with
      | .error e => .error e
      | .ok (vs, st2) => .ok (v :: vs, st2)

/-- The stream reads performed by the source's
`parse_ply_property_definition_ascii`: a list property first reads its
length and then that many values; a scalar property reads one value. -/
def readPropValues (pd : PLY_Property_Definition) (st : IStream) :
    Except CppError (List ℚ × IStream) :=
  match pd.type with
  | .list =>
    match readSizeT st with
    | .error e => .error e
    | .ok (n, st1) => readDoubles n st1
  | .scalar =>
    match readDouble st with
    | .error e => .error e
    | .ok (v, st1) => .ok ([v], st1)

/-- The source's `parse_ply_property_definition_ascii`: look up (or
default-insert) `property_map[pd.name]` and append the values read for
`pd` to its accumulated value list. -/
def parse_ply_property_definition_ascii (pd : PLY_Property_Definition) (st : IStream)
    (pm : List (String × PLY_Property)) :
    Except CppError (List (String × PLY_Property) × IStream) :=
  match readPropValues pd st with
  | .error e => .error e
  | .ok (vs, st1) =>
    .ok (mapSet pm pd.name ⟨((mapFind pm pd.name).getD ⟨[]⟩).values ++ vs⟩, st1)

/-- One record: the properties of one element occurrence, parsed in
declaration order (the inner loop of
`parse_ply_element_definition_ascii`). -/
def parse_ply_record : List PLY_Property_Definition → IStream → List (String × PLY_Property) →
    Except CppError (List (String × PLY_Property) × IStream)
  | [], st, pm => .ok (pm, st)
  | pd :: rest, st, pm =>
    match parse_ply_property_definition_ascii pd st pm with
    | .error e => .error e
    | .ok (pm1, st1) => parse_ply_record rest st1 pm1

/-- The declared number of records for one element definition, appended
one by one (the outer loop of `parse_ply_element_definition_ascii`). -/
def parse_ply_records (pds : List PLY_Property_Definition) :
    Nat → IStream → List PLY_Element → Except CppError (List PLY_Element × IStream)
  | 0, st, es => .ok (es, st)
  | n + 1, st, es =>
    match parse_ply_record pds st [] with
    | .error e => .error e
    | .ok (pm, st1) => parse_ply_records pds n st1 (es ++ [⟨pm⟩])

/-- The source's `parse_ply_element_definition_ascii`: get (or
default-insert) `elements_map[ed.name]` and append `ed.count` parsed
records to it. -/
def parse_ply_element_definition_ascii (ed : PLY_Element_Definition) (st : IStream)
    (parsed : Parsed_PLY) : Except CppError (Parsed_PLY × IStream) :=
  match parse_ply_records ed.property_definitions ed.count st
      ((mapFind parsed.elements_map ed.name).getD []) with
  | .error e => .error e
  | .ok (es, st1) => .ok (⟨mapSet parsed.elements_map ed.name es⟩, st1)

/-- The data-section stage: every element definition in declaration
order. -/
def parse_ply_elements : List PLY_Element_Definition → IStream → Parsed_PLY →
    Except CppError (Parsed_PLY × IStream)
  | [], st, parsed => .ok (parsed, st)
  | ed :: rest, st, parsed =>
    match parse_ply_element_definition_ascii ed st parsed with
    | .error e => .error e
    | .ok (p1, st1) => parse_ply_elements rest st1 p1

/-- `element_definitions.back().property_definitions.push_back(pd)`:
append a property definition to the last declared element. -/
def modifyLastED : List PLY_Element_Definition → PLY_Property_Definition →
    List PLY_Element_Definition
  | [], _ => []
  | [ed], pd => [⟨ed.name, ed.count, ed.property_definitions ++ [pd]⟩]
  | ed :: rest, pd => ed :: modifyLastED rest pd

/-- The header loop of the source's `read_ply(ifs)`:
`while (ifs.good() && token != "end_header")`, dispatching on the tokens
`comment`, `element` and `property` and ignoring anything else.  The
`token` parameter is the value of the C++ `token` variable at the loop
condition; note that the `element` branch reads the name and count into
other variables (leaving `token` as `"element"`), while the `property`
branch reads the type token(s) into `token` and the name into `pd.name`.
A `property` line seen while no element has been declared throws
`PLY_Expected_Element_Definition_Error` — after its type and name tokens
have been consumed.  The fuel only bounds the recursion; every iteration
consumes at least one byte, so callers pass `file.length + 1`. -/
def header_loop : Nat → String → List PLY_Element_Definition → IStream →
    Except CppError (List PLY_Element_Definition × IStream)
  | 0, _, _, _ => .error .iosFailure
  | fuel + 1, token, eds, st =>
    if st.eof = false ∧ token ≠ "end_header" then
      match readToken st with
      | .error e => .error e
      | .ok (tok, st1) =>
        if tok = "comment" then
          match skipLine st1 with
          | .error e => .error e
          | .ok st2 => header_loop fuel tok eds st2
        else if tok = "element" then
          match readToken st1 with
          | .error e => .error e
          | .ok (nm, st2) =>
            match readSizeT st2 with
            | .error e => .error e
            | .ok (cnt, st3) => header_loop fuel tok (eds ++ [⟨nm, cnt, []⟩]) st3
        else if tok = "property" then
          match readToken st1 with
          | .error e => .error e
          | .ok (t1, st2) =>
            if t1 = "list" then
              match readToken st2 with
              | .error e => .error e
              | .ok (_, st3) =>
                match readToken st3 with
                | .error e => .error e
                | .ok (t3, st4) =>
                  match readToken st4 with
                  | .error e => .error e
                  | .ok (nm, st5) =>
                    if eds.isEmpty then .error .expectedElementDefinition
                    else header_loop fuel t3 (modifyLastED eds ⟨.list, nm⟩) st5
            else
              match readToken st2 with
              | .error e => .error e
              | .ok (nm, st3) =>
                if eds.isEmpty then .error .expectedElementDefinition
                else header_loop fuel t1 (modifyLastED eds ⟨.scalar, nm⟩) st3
        else header_loop fuel tok eds st1
    else .ok (eds, st)

/-- The first four tokens of the source's `read_ply(ifs)`: `ply`,
`format`, the format name (kept), and the version number (kept as the
initial value of the loop's `token` variable). -/
def read_ply_prelude (file : List Char) : Except CppError (String × String × IStream) := do
  let st : IStream := ⟨file, 0, false⟩
  let (_, st) ← readToken st        -- expecting "ply"
  let (_, st) ← readToken st        -- expecting "format"
  let (fmt, st) ← readToken st
  let (ver, st) ← readToken st      -- expecting a version number
  .ok (fmt, ver, st)

/-- Header phase of the source's `read_ply(ifs)`: prelude then header
loop; returns the format string, the element definitions and the stream
positioned after `end_header`. -/
def read_ply_header (file : List Char) :
    Except CppError (String × List PLY_Element_Definition × IStream) :=
  match read_ply_prelude file with
  | .error e => .error e
  | .ok (fmt, ver, st) =>
    match header_loop (file.length + 1) ver [] st with
    | .error e => .error e
    | .ok (eds, st1) => .ok (fmt, eds, st1)

/-- The source's `Parsed_PLY read_ply(std::ifstream &)`: parse the
header, then run the ASCII data stage only when the declared format is
exactly `"ascii"`; for any other format the store stays empty and the
data section is never read. -/
def read_ply_parsed (file : List Char) : Except CppError (Parsed_PLY × IStream) :=
  match read_ply_header file with
  | .error e => .error e
  | .ok (fmt, eds, st1) =>
    if fmt = "ascii" then parse_ply_elements eds st1 ⟨[]⟩
    else .ok (⟨[]⟩, st1)

/-- Message of the `std::out_of_range` the source throws when a face
record has neither index property. -/
def faceIndexMsg : String :=
  "Could not find face property vertex_index nor vertex_indices in PLY file"

/-- The source's `static_cast<size_t>(vertex_indices[i])`: truncate the
value toward zero; a truncated value that does not fit in `size_t` makes
the conversion undefined (`none`). -/
def castToSize (q : ℚ) : Option Nat :=
  let t : Int := Int.tdiv q.num (q.den : Int)
  if 0 ≤ t ∧ t < 2 ^ 64 then some t.toNat else none

/-- One vertex of the projector's first loop:
`vertices.emplace_back(at("x").values[0], at("y").values[0],
at("z").values[0])`.  A missing property name throws `std::out_of_range`
from `map::at`; `values[0]` is an unchecked `std::vector` read, so an
empty value list is undefined behavior. -/
def buildVertex {α : Type} [Field α] (e : PLY_Element) : Except CppError (Vec3 α) :=
  match mapFind e.property_map "x" with
  | none => .error (.outOfRange "x")
  | some px =>
    match mapFind e.property_map "y" with
    | none => .error (.outOfRange "y")
    | some py =>
      match mapFind e.property_map "z" with
      | none => .error (.outOfRange "z")
      | some pz =>
        match px.values, py.values, pz.values with
        | vx :: _, vy :: _, vz :: _ => .ok ⟨(vx : α), (vy : α), (vz : α)⟩
        | _, _, _ => .error .undefinedBehavior

/-- The projector's vertex loop over the records of the `vertex`
element. -/
def buildVertices {α : Type} [Field α] : List PLY_Element → Except CppError (List (Vec3 α))
  | [] => .ok []
  | e :: rest =>
    match buildVertex (α := α) e with
    | .error er => .error er
    | .ok v =>
      match buildVertices (α := α) rest with
      | .error er => .error er
      | .ok vs => .ok (v :: vs)

/-- Locating a face record's index list: `vertex_indices`, falling back
to `vertex_index`; neither present throws `std::out_of_range` with
`faceIndexMsg`. -/
def getIndexList (e : PLY_Element) : Except CppError (List ℚ) :=
  match mapFind e.property_map "vertex_indices" with
  | some p => .ok p.values
  | none =>
    match mapFind e.property_map "vertex_index" with
    | some p => .ok p.values
    | none => .error (.outOfRange faceIndexMsg)

/-- The source's `vertices[static_cast<size_t>(idx)]`: the cast and then
an unchecked `std::vector::operator[]` read.  The source performs no
bounds check here (unlike its `map::at` lookups), so an out-of-range
index is undefined behavior, not a reported error. -/
def lookupVertex {α : Type} (vertices : List (Vec3 α)) (q : ℚ) : Except CppError (Vec3 α) :=
  match castToSize q with
  | none => .error .undefinedBehavior
  | some i =>
    match vertices.get? i with
    | none => .error .undefinedBehavior
    | some v => .ok v

/-- Body of the projector's face loop for one face record: find the
index list, require exactly 3 indices (else `std::domain_error` with the
found length), look the three vertices up, and build the triangle with
the normalized cross product of `(v1 - v0)` and `(v2 - v0)` as its
normal. -/
def projectFace {α : Type} [Field α] (sqrt : α → α) (vertices : List (Vec3 α))
    (e : PLY_Element) : Except CppError (Triangle α) :=
  match getIndexList e with
  | .error er => .error er
  | .ok idxs =>
    match idxs with
    | [i0, i1, i2] =>
      match lookupVertex vertices i0 with
      | .error er => .error er
      | .ok v0 =>
        match lookupVertex vertices i1 with
        | .error er => .error er
        | .ok v1 =>
          match lookupVertex vertices i2 with
          | .error er => .error er
          | .ok v2 =>
            .ok ⟨Vec3.normalize sqrt ((v1 - v0).cross (v2 - v0)), v0, v1, v2⟩
    | _ => .error (.domainError idxs.length)

/-- The projector's face loop: append one triangle per face record. -/
def projectFaces {α : Type} [Field α] (sqrt : α → α) (vertices : List (Vec3 α)) :
    List PLY_Element → List (Triangle α) → Except CppError (List (Triangle α))
  | [], acc => .ok acc
  | e :: rest, acc =>
    match projectFace sqrt vertices e with
    | .error er => .error er
    | .ok t => projectFaces sqrt vertices rest (acc ++ [t])

/-- The source's `read_ply(std::ifstream &, std::vector<Triangle> &)`
after the store is parsed: build the vertex sequence from the `vertex`
element's records (`map::at("vertex")` throws when absent), then project
every record of the `face` element (`map::at("face")` throws when
absent). -/
def read_ply_project {α : Type} [Field α] (sqrt : α → α) (store : Parsed_PLY) :
    Except CppError (List (Triangle α)) :=
  match mapFind store.elements_map "vertex" with
  | none => .error (.outOfRange "vertex")
  | some ves =>
    match buildVertices (α := α) ves with
    | .error er => .error er
    | .ok vertices =>
      match mapFind store.elements_map "face" with
      | none => .error (.outOfRange "face")
      | some fes => projectFaces sqrt vertices fes []

/-- The full PLY pipeline of the source: parse, then project. -/
def read_ply_triangles {α : Type} [Field α] (sqrt : α → α) (file : List Char) :
    Except CppError (List (Triangle α)) :=
  match read_ply_parsed file with
  | .error e => .error e
  | .ok (store, _) => read_ply_project sqrt store

/-- The line `main` prints on success. -/
def countLine (n : Nat) : String := "Number of triangles: " ++ toString n

/-- A run of `main` on a `.stl` path: the lines printed to standard
output, or the exception that aborted the run.  `read_stl` prints
"Empty file" for a zero-byte file and returns; `main` then always
prints the triangle count. -/
def run_stl (file : List Char) : Except CppError (List String) :=
  match read_stl file with
  | .error e => .error e
  | .ok r =>
    .ok ((if r.path = StlPath.emptyFile then ["Empty file"] else []) ++
      [countLine r.triangles.length])

/-- A run of `main` on a `.ply` path: the lines printed to standard
output, or the exception that aborted the run. -/
def run_ply {α : Type} [Field α] (sqrt : α → α) (file : List Char) :
    Except CppError (List String) :=
  match read_ply_triangles sqrt file with
  | .error e => .error e
  | .ok tris => .ok [countLine tris.length]

/-- Characterization of the header shape named by the claim "a
`property` line appears before any `element` line", phrased over the
same loop structure as `header_loop`: starting from the loop condition
with token `token`, the next keyword dispatched — skipping comment lines
and ignored junk tokens — is a complete `property` line (its type and
name tokens are readable), with no `element` line, `end_header`, or
end of stream encountered first. -/
def property_before_element : Nat → String → IStream → Bool
  | 0, _, _ => false
  | fuel + 1, token, st =>
    if st.eof = false ∧ token ≠ "end_header" then
      match readToken st with
      | .error _ => false
      | .ok (tok, st1) =>
        if tok = "comment" then
          match skipLine st1 with
          | .error _ => false
          | .ok st2 => property_before_element fuel tok st2
        else if tok = "element" then false
        else if tok = "property" then
          match readToken st1 with
          | .error _ => false
          | .ok (t1, st2) =>
            if t1 = "list" then
              match readToken st2 with
              | .error _ => false
              | .ok (_, st3) =>
                match readToken st3 with
                | .error _ => false
                | .ok (_, st4) =>
                  match readToken st4 with
                  | .error _ => false
                  | .ok (_, _) => true
            else
              match readToken st2 with
              | .error _ => false
              | .ok (_, _) => true
        else property_before_element fuel tok st1
    else false

/-- A 136-byte file (the length the claim's formula `80 + 4 + N * (50 + 2)`
predicts for a binary STL with one triangle): an ignored 80-byte header,
the little-endian count 1, and 52 further bytes. -/
def c1_file136 : List Char :=
  List.replicate 80 (Char.ofNat 0) ++
    [Char.ofNat 1, Char.ofNat 0, Char.ofNat 0, Char.ofNat 0] ++
    List.replicate 52 (Char.ofNat 0)

/-- A 134-byte file (the size the source actually compares against for a
declared count of 1: `80 + 4 + 1 * (48 + 2)`): an ignored 80-byte
header, the little-endian count 1, and one 50-byte triangle record. -/
def c1_file134 : List Char :=
  List.replicate 80 (Char.ofNat 0) ++
    [Char.ofNat 1, Char.ofNat 0, Char.ofNat 0, Char.ofNat 0] ++
    List.replicate 50 (Char.ofNat 0)

/-- A 10-byte file: too short for the 4-byte count read at offset 80. -/
def c1_file10 : List Char := List.replicate 10 'x'

/-- A well-formed ASCII STL body with one `facet ... endfacet` block,
ending immediately after the last token. -/
def c2_ascii_core : String :=
  "solid ascii_example\nfacet normal 0 0 1\nouter loop\nvertex 0 0 0\nvertex 1 0 0\nvertex 0 1 0\nendloop\nendfacet\nendsolid ascii_example"

/-- The same well-formed ASCII STL with a single trailing newline, the
usual on-disk form of a text file. -/
def c2_ascii_nl : String := c2_ascii_core ++ "\n"

/-- A well-formed ASCII STL with zero facets, shorter than 84 bytes. -/
def c2_short_solid : String := "solid s endsolid s"

/-- An ASCII PLY file with one vertex and a face whose third index, 5,
is out of range of the one-element vertex sequence. -/
def c4_file : String :=
  "ply\nformat ascii 1.0\nelement vertex 1\nproperty float x\nproperty float y\nproperty float z\nelement face 1\nproperty list uchar int vertex_indices\nend_header\n0 0 0\n3 0 0 5\n"

/-- A PLY header that declares a property before any element. -/
def c6_file : String := "ply\nformat ascii 1.0\nproperty float x\nend_header\n"

/-- A well-formed ASCII PLY file with three vertices and one triangular
face. -/
def c9_ply_file : String :=
  "ply\nformat ascii 1.0\nelement vertex 3\nproperty float x\nproperty float y\nproperty float z\nelement face 1\nproperty list uchar int vertex_indices\nend_header\n0 0 0\n1 0 0\n0 1 0\n3 0 1 2\n"

/-- A PLY file whose declared format is `binary_little_endian`, with a
schema and a data section that is never read. -/
def c10_file : String :=
  "ply\nformat binary_little_endian 1.0\nelement vertex 1\nproperty float x\nend_header\n"


/-- A parsed vertex record at the origin. -/
def c5_vertex_elem : PLY_Element := ⟨[("x", ⟨[0]⟩), ("y", ⟨[0]⟩), ("z", ⟨[0]⟩)]⟩

/-- A store with no `vertex` element at all. -/
def c5_store_no_vertex : Parsed_PLY := ⟨[]⟩

/-- A store with a `vertex` element but no `face` element. -/
def c5_store_no_face : Parsed_PLY := ⟨[("vertex", [c5_vertex_elem])]⟩

/-- A store whose one face record has neither `vertex_indices` nor
`vertex_index`. -/
def c5_store_no_prop : Parsed_PLY := ⟨[("vertex", [c5_vertex_elem]), ("face", [⟨[]⟩])]⟩

/-- A store whose one face record has an index list of length 2. -/
def c5_store_len2 : Parsed_PLY :=
  ⟨[("vertex", [c5_vertex_elem]), ("face", [⟨[("vertex_indices", ⟨[0, 0]⟩)]⟩])]⟩

/-- A data stream holding the two numerals `1 2`. -/
def c7_stream : IStream := ⟨"1 2".toList, 0, false⟩

/-- A store with the three unit-triangle vertices and one face. -/
def c8_store : Parsed_PLY :=
  ⟨[("vertex",
      [⟨[("x", ⟨[0]⟩), ("y", ⟨[0]⟩), ("z", ⟨[0]⟩)]⟩,
       ⟨[("x", ⟨[1]⟩), ("y", ⟨[0]⟩), ("z", ⟨[0]⟩)]⟩,
       ⟨[("x", ⟨[0]⟩), ("y", ⟨[1]⟩), ("z", ⟨[0]⟩)]⟩]),
    ("face", [⟨[("vertex_indices", ⟨[0, 1, 2]⟩)]⟩])]⟩

/-! Helper lemmas about the stream primitives. -/

theorem IStream.rest_length (file : List Char) (pos : Nat) (eof : Bool) :
    (⟨file, pos, eof⟩ : IStream).rest.length = file.length - pos := by
  simp [IStream.rest]

theorem readBytes_ok (n : Nat) (file : List Char) (pos : Nat) (h : n + pos ≤ file.length) :
    readBytes n ⟨file, pos, false⟩ = .ok ((file.drop pos).take n, ⟨file, pos + n, false⟩) := by
  simp only [readBytes, IStream.rest_length]
  rw [if_neg (by simp), if_pos (by omega)]
  rfl

theorem readBytes_err (n : Nat) (file : List Char) (pos : Nat) (hn : 0 < n)
    (h : file.length < n + pos) :
    readBytes n ⟨file, pos, false⟩ = .error .iosFailure := by
  simp only [readBytes, IStream.rest_length]
  rw [if_neg (by simp), if_neg (by omega)]

theorem readU32_ok (file : List Char) (pos : Nat) (h : 4 + pos ≤ file.length) :
    readU32 ⟨file, pos, false⟩ =
      .ok (le32 ((file.drop pos).take 4), ⟨file, pos + 4, false⟩) := by
  simp [readU32, readBytes_ok 4 file pos h]

theorem read_binary_stl_ok (n : Nat) :
    ∀ (file : List Char) (pos : Nat) (acc : List STriangle),
    pos + 50 * n ≤ file.length →
    (read_binary_stl n ⟨file, pos, false⟩ acc).map (fun p => (p.1.length, p.2)) =
      .ok (acc.length + n, ⟨file, pos + 50 * n, false⟩) := by
  induction n with
  | zero => intro file pos acc h; simp [read_binary_stl, Except.map]
  | succ n ih =>
    intro file pos acc h
    rw [read_binary_stl]
    simp only [readBytes_ok 48 file pos (by omega), readBytes_ok 2 file (pos + 48) (by omega)]
    rw [ih file (pos + 48 + 2) (acc ++ [STriangle.ofBytes (List.take 48 (List.drop pos file))])
      (by omega)]
    simp only [Except.ok.injEq, Prod.mk.injEq, IStream.mk.injEq, List.length_append,
      List.length_cons, List.length_nil, and_true, true_and]
    exact ⟨by omega, by omega⟩

/-! Claim C1.  The claim predicts the binary branch for a total length of
`80 + 4 + N * (50 + 2)` bytes; the source compares the length against
`80 + 4 + N * (sizeof(Triangle) + sizeof(uint16_t))` with
`sizeof(Triangle) = 48`, i.e. against `80 + 4 + N * 50`. -/

/-- Claim C1, counterexample: `c1_file136` is exactly `80 + 4 + 1 * (50 + 2)`
bytes long and declares the count `N = 1` at offset 80, so the claim
says the decoder takes the binary path and produces exactly one
triangle; the source instead takes the ASCII path and produces zero
triangles.  Conversely `c1_file134` has a total length different from
`80 + 4 + N * (50 + 2)`, for which the claim predicts the ASCII path,
yet the source decodes it on the binary path. -/
theorem c1_counterexample :
    declaredCount c1_file136 = 1 ∧
    c1_file136.length = 80 + 4 + 1 * (50 + 2) ∧
    (read_stl c1_file136).map (fun r => (r.path, r.triangles.length)) =
      .ok (.asciiPath, 0) ∧
    declaredCount c1_file134 = 1 ∧
    c1_file134.length ≠ 80 + 4 + 1 * (50 + 2) ∧
    (read_stl c1_file134).map (fun r => (r.path, r.triangles.length)) =
      .ok (.binaryPath, 1) := by
  refine ⟨by decide, by decide, ?_, by decide, by decide, ?_⟩ <;> decide

/-- Claim C1, amended: with `N` the unsigned 32-bit little-endian count
at offset 80, a file whose total length is exactly
`80 + 4 + N * (48 + 2)` (48 being `sizeof(Triangle)`, i.e. twelve
4-byte floats) is decoded on the binary path into exactly `N`
triangles, consuming exactly `80 + 4 + N * 50` bytes; a file of any
other total length of at least 84 bytes is rewound to offset 0 and
decoded on the ASCII path; a non-empty file shorter than 84 bytes fails
with a stream error while reading the 4-byte count. -/
theorem c1_amended_dispatch :
    (∀ file : List Char, file.length = 80 + 4 + declaredCount file * (48 + 2) →
      (read_stl file).map (fun r => (r.path, r.triangles.length, r.finalPos)) =
        .ok (.binaryPath, declaredCount file, 80 + 4 + declaredCount file * (48 + 2))) ∧
    (∀ file : List Char, 84 ≤ file.length →
      file.length ≠ 80 + 4 + declaredCount file * (48 + 2) →
      read_stl file =
        (read_ascii_stl (file.length + 1) ⟨file, 0, false⟩ []).map
          (fun p => ⟨.asciiPath, p.1, p.2.pos⟩)) ∧
    (∀ file : List Char, 0 < file.length → file.length < 84 →
      read_stl file = .error .iosFailure) := by
  refine ⟨?_, ?_, ?_⟩
  · intro file h
    rw [read_stl, if_neg (by omega)]
    simp only [IStream.seekg, readU32_ok file 80 (by omega)]
    rw [show le32 ((file.drop 80).take 4) = declaredCount file from rfl, if_pos h]
    have hb := read_binary_stl_ok (declaredCount file) file (80 + 4) [] (by omega)
    cases hbin : read_binary_stl (declaredCount file) ⟨file, 80 + 4, false⟩ [] with
    | error e => rw [hbin] at hb; simp [Except.map] at hb
    | ok p =>
      rw [hbin] at hb
      simp only [Except.map, List.length_nil, Nat.zero_add] at hb
      have hpair := Except.ok.inj hb
      have h1 : p.1.length = declaredCount file := congrArg Prod.fst hpair
      have h2 : p.2 = ⟨file, 80 + 4 + 50 * declaredCount file, false⟩ := congrArg Prod.snd hpair
      simp only [Except.map, h1, h2]
      rw [show 80 + 4 + 50 * declaredCount file = 80 + 4 + declaredCount file * (48 + 2)
        by omega]
  · intro file h84 hne
    rw [read_stl, if_neg (by omega)]
    simp only [IStream.seekg, readU32_ok file 80 (by omega)]
    rw [show le32 ((file.drop 80).take 4) = declaredCount file from rfl, if_neg hne]
    cases read_ascii_stl (file.length + 1) ⟨file, 0, false⟩ [] with
    | error e => rfl
    | ok p => rfl
  · intro file h0 h84
    rw [read_stl, if_neg (by omega)]
    simp only [IStream.seekg, readU32, readBytes_err 4 file 80 (by norm_num) (by omega)]

/-- Claim C1, witness: the amended dispatch rule evaluated on a 134-byte
binary STL with one declared triangle, on the 136-byte file, and on a
10-byte file. -/
theorem c1_amended_dispatch_witness :
    (read_stl c1_file134).map (fun r => (r.path, r.triangles.length, r.finalPos)) =
      .ok (.binaryPath, declaredCount c1_file134,
        80 + 4 + declaredCount c1_file134 * (48 + 2)) ∧
    read_stl c1_file136 =
      (read_ascii_stl (c1_file136.length + 1) ⟨c1_file136, 0, false⟩ []).map
        (fun p => ⟨.asciiPath, p.1, p.2.pos⟩) ∧
    read_stl c1_file10 = .error .iosFailure :=
  ⟨c1_amended_dispatch.1 c1_file134 (by decide),
   c1_amended_dispatch.2.1 c1_file136 (by decide) (by decide),
   c1_amended_dispatch.2.2 c1_file10 (by decide) (by decide)⟩

/-! Claim C2.  `main` enables `failbit` exceptions, and the
`read_ascii_stl` loop's `ifs >> token` throws when the whitespace skip
reaches end of file with nothing left to extract, so a well-formed ASCII
STL that ends with a newline — the usual on-disk form — aborts with
`std::ios_base::failure` instead of finishing with its facet count; the
same well-formed text with no trailing whitespace decodes cleanly.  A
well-formed ASCII STL shorter than 84 bytes fails even earlier, in the
4-byte count read of `read_stl`. -/

/-- Claim C2: the same well-formed one-facet ASCII STL succeeds with one
triangle when the file ends immediately after `endsolid ascii_example`,
but aborts with a stream failure when a single trailing newline follows
it; a zero-facet well-formed ASCII STL under 84 bytes also aborts. -/
theorem c2_trailing_whitespace_failure :
    read_stl c2_ascii_nl.toList = .error .iosFailure ∧
    (read_stl c2_ascii_core.toList).map (fun r => (r.path, r.triangles.length)) =
      .ok (.asciiPath, 1) ∧
    read_stl c2_short_solid.toList = .error .iosFailure :=
  ⟨by decide, by decide, by decide⟩

/-! Claim C3.  Only `read_stl` has the zero-length early return; the PLY
reader starts with `ifs >> token`, which throws on an empty stream. -/

/-- Claim C3, counterexample: a zero-byte input on the PLY path does not
produce the claimed non-error empty outcome; the very first header token
extraction throws. -/
theorem c3_counterexample :
    run_ply (α := ℚ) id ([] : List Char) = .error .iosFailure := by decide

/-- Claim C3, amended: a zero-byte input on the STL path prints
"Empty file", decodes zero triangles and ends the run successfully; a
zero-byte input on the PLY path aborts with a stream failure on the
first header token. -/
theorem c3_amended_empty_file :
    run_stl ([] : List Char) = .ok ["Empty file", countLine 0] ∧
    (read_stl ([] : List Char)).map (fun r => r.triangles.length) = .ok 0 ∧
    run_ply (α := ℚ) id ([] : List Char) = .error .iosFailure :=
  ⟨by decide, by decide, by decide⟩

/-! Claim C9.  `read_stl` prints "Empty file" and returns, after which
`main` unconditionally prints the count line as well, so a zero-byte
STL run prints two lines. -/

/-- Claim C9, counterexample: the successful run on a zero-byte STL
input prints two lines, "Empty file" and then "Number of triangles: 0",
not a single line. -/
theorem c9_counterexample :
    run_stl ([] : List Char) = .ok ["Empty file", "Number of triangles: 0"] ∧
    (["Empty file", "Number of triangles: 0"] : List String).length = 2 :=
  ⟨by decide, by decide⟩

/-- Every successful `read_stl` on a non-empty file went through the
binary or the ASCII branch, never the empty-file branch. -/
theorem read_stl_path_ne_empty (file : List Char) (r : StlRes) (h0 : ¬file.length = 0)
    (h : read_stl file = .ok r) : r.path ≠ .emptyFile := by
  rw [read_stl, if_neg h0] at h
  simp only [IStream.seekg] at h
  split at h
  · exact absurd h (by simp)
  · split at h
    · split at h
      · exact absurd h (by simp)
      · rw [← Except.ok.inj h]; simp
    · split at h
      · exact absurd h (by simp)
      · rw [← Except.ok.inj h]; simp

/-- Claim C9, amended: every successful run prints the count line
exactly once, as its last line; a run on a zero-byte STL input prints
"Empty file" first (two lines in total), and every other successful run
— STL or PLY — prints the single count line. -/
theorem c9_amended_output :
    (∀ (file : List Char) (lines : List String), run_stl file = .ok lines →
      (file.length = 0 ∧ lines = ["Empty file", countLine 0]) ∨
      (∃ n : Nat, lines = [countLine n])) ∧
    (∀ (sqrt : ℚ → ℚ) (file : List Char) (lines : List String),
      run_ply sqrt file = .ok lines → ∃ n : Nat, lines = [countLine n]) := by
  constructor
  · intro file lines h
    cases hr : read_stl file with
    | error e => rw [run_stl, hr] at h; exact absurd h (by simp)
    | ok r =>
      rw [run_stl, hr] at h
      by_cases h0 : file.length = 0
      · left
        have hrv : r = ⟨.emptyFile, [], 0⟩ := by
          rw [read_stl, if_pos h0] at hr
          exact (Except.ok.inj hr).symm
        subst hrv
        simp only [List.length_nil] at h
        have := Except.ok.inj h
        simp at this
        exact ⟨h0, this.symm⟩
      · right
        have hp := read_stl_path_ne_empty file r h0 hr
        have := Except.ok.inj h
        rw [if_neg hp] at this
        exact ⟨r.triangles.length, by simpa using this.symm⟩
  · intro sq file lines h
    cases hr : read_ply_triangles sq file with
    | error e => rw [run_ply, hr] at h; exact absurd h (by simp)
    | ok tris =>
      rw [run_ply, hr] at h
      exact ⟨tris.length, (Except.ok.inj h).symm⟩

/-- Claim C9, witness: the amended output shape evaluated on the
zero-byte STL run and on a successful one-triangle PLY run. -/
theorem c9_amended_output_witness :
    ((([] : List Char).length = 0 ∧
        (["Empty file", countLine 0] : List String) = ["Empty file", countLine 0]) ∨
      (∃ n : Nat, (["Empty file", countLine 0] : List String) = [countLine n])) ∧
    (∃ n : Nat, (["Number of triangles: 1"] : List String) = [countLine n]) :=
  ⟨c9_amended_output.1 [] ["Empty file", countLine 0] (by decide),
   c9_amended_output.2 id c9_ply_file.toList ["Number of triangles: 1"]
     (by with_unfolding_all decide)⟩


/-! Claim C4.  The projector indexes the vertex vector with the
unchecked `operator[]` (`vertices[static_cast<size_t>(...)]`), in
contrast with the checked `map::at` calls it uses everywhere else, so an
out-of-range face index is undefined behavior — no bounds error is
raised and nothing stops the run. -/

/-- Claim C4: on a PLY file with one vertex and a face index 5, the
embedded projector reaches the unchecked out-of-range vector read
(`CppError.undefinedBehavior`); the source contains no bounds check that
could report the BoundsError the claim describes. -/
theorem c4_unchecked_vertex_index :
    read_ply_triangles (α := ℚ) id c4_file.toList = .error .undefinedBehavior := by
  with_unfolding_all decide

/-! Claim C5: the projector's error conditions. -/

theorem projectFaces_append {α : Type} [Field α] (sqrt : α → α) (vertices : List (Vec3 α))
    (pre post : List PLY_Element) (acc : List (Triangle α)) :
    projectFaces sqrt vertices (pre ++ post) acc =
      match projectFaces sqrt vertices pre acc with
      | .error e => .error e
      | .ok tris => projectFaces sqrt vertices post tris := by
  induction pre generalizing acc with
  | nil => simp [projectFaces]
  | cons e rest ih =>
    simp only [List.cons_append, projectFaces]
    cases projectFace sqrt vertices e with
    | error er => rfl
    | ok t => exact ih (acc ++ [t])

/-- Claim C5: the projector throws `std::out_of_range` when the store
has no `vertex` element; throws `std::out_of_range` when it has no
`face` element; throws `std::out_of_range` with `faceIndexMsg` at the
first face record carrying neither `vertex_indices` nor `vertex_index`;
and throws `std::domain_error` with the found length at the first face
record whose index list does not have exactly 3 entries. -/
theorem c5_projector_errors :
    (∀ (α : Type) [instF : Field α], ∀ (sqrt : α → α) (store : Parsed_PLY),
      mapFind store.elements_map "vertex" = none →
      read_ply_project sqrt store = .error (.outOfRange "vertex")) ∧
    (∀ (α : Type) [instF : Field α], ∀ (sqrt : α → α) (store : Parsed_PLY)
      (ves : List PLY_Element) (vs : List (Vec3 α)),
      mapFind store.elements_map "vertex" = some ves →
      buildVertices ves = .ok vs →
      mapFind store.elements_map "face" = none →
      read_ply_project sqrt store = .error (.outOfRange "face")) ∧
    (∀ (α : Type) [instF : Field α], ∀ (sqrt : α → α) (store : Parsed_PLY)
      (ves : List PLY_Element) (vs : List (Vec3 α)) (pre : List PLY_Element)
      (e : PLY_Element) (rest : List PLY_Element) (tris : List (Triangle α)),
      mapFind store.elements_map "vertex" = some ves →
      buildVertices ves = .ok vs →
      mapFind store.elements_map "face" = some (pre ++ e :: rest) →
      projectFaces sqrt vs pre [] = .ok tris →
      mapFind e.property_map "vertex_indices" = none →
      mapFind e.property_map "vertex_index" = none →
      read_ply_project sqrt store = .error (.outOfRange faceIndexMsg)) ∧
    (∀ (α : Type) [instF : Field α], ∀ (sqrt : α → α) (store : Parsed_PLY)
      (ves : List PLY_Element) (vs : List (Vec3 α)) (pre : List PLY_Element)
      (e : PLY_Element) (rest : List PLY_Element) (tris : List (Triangle α))
      (idxs : List ℚ),
      mapFind store.elements_map "vertex" = some ves →
      buildVertices ves = .ok vs →
      mapFind store.elements_map "face" = some (pre ++ e :: rest) →
      projectFaces sqrt vs pre [] = .ok tris →
      getIndexList e = .ok idxs →
      idxs.length ≠ 3 →
      read_ply_project sqrt store = .error (.domainError idxs.length)) := by
  refine ⟨?_, ?_, ?_, ?_⟩
  · intro α instF sqrt store h
    simp only [read_ply_project, h]
  · intro α instF sqrt store ves vs h1 h2 h3
    simp only [read_ply_project, h1, h2, h3]
  · intro α instF sqrt store ves vs pre e rest tris h1 h2 h3 h4 h5 h6
    simp only [read_ply_project, h1, h2, h3]
    rw [projectFaces_append]
    simp only [h4, projectFaces, projectFace, getIndexList, h5, h6]
  · intro α instF sqrt store ves vs pre e rest tris idxs h1 h2 h3 h4 h5 hlen
    simp only [read_ply_project, h1, h2, h3]
    rw [projectFaces_append]
    simp only [h4, projectFaces, projectFace, h5]
    rcases idxs with _ | ⟨a, _ | ⟨b, _ | ⟨c, _ | ⟨d, t⟩⟩⟩⟩
    · rfl
    · rfl
    · rfl
    · exact absurd rfl hlen
    · rfl

/-- Claim C5, witness: the four error conditions evaluated on concrete
stores. -/
theorem c5_projector_errors_witness :
    read_ply_project (α := ℚ) id c5_store_no_vertex = .error (.outOfRange "vertex") ∧
    read_ply_project (α := ℚ) id c5_store_no_face = .error (.outOfRange "face") ∧
    read_ply_project (α := ℚ) id c5_store_no_prop = .error (.outOfRange faceIndexMsg) ∧
    read_ply_project (α := ℚ) id c5_store_len2 =
      .error (.domainError ([(0 : ℚ), 0].length)) :=
  ⟨c5_projector_errors.1 ℚ id c5_store_no_vertex (by decide),
   c5_projector_errors.2.1 ℚ id c5_store_no_face [c5_vertex_elem] [⟨0, 0, 0⟩]
     (by decide) (by with_unfolding_all decide) (by decide),
   c5_projector_errors.2.2.1 ℚ id c5_store_no_prop [c5_vertex_elem] [⟨0, 0, 0⟩]
     [] ⟨[]⟩ [] [] (by decide) (by with_unfolding_all decide) (by decide) (by decide)
     (by decide) (by decide),
   c5_projector_errors.2.2.2 ℚ id c5_store_len2 [c5_vertex_elem] [⟨0, 0, 0⟩]
     [] ⟨[("vertex_indices", ⟨[0, 0]⟩)]⟩ [] [] [(0 : ℚ), 0]
     (by decide) (by with_unfolding_all decide) (by decide) (by decide)
     (by decide) (by decide)⟩

/-! Claim C6: property line before any element line. -/

/-- Whenever the header loop, running with no element declared yet,
next dispatches a complete `property` line (as characterized by
`property_before_element`), it throws
`PLY_Expected_Element_Definition_Error`. -/
theorem header_loop_property_first (fuel : Nat) :
    ∀ (token : String) (st : IStream),
    property_before_element fuel token st = true →
    header_loop fuel token [] st = .error .expectedElementDefinition := by
  induction fuel with
  | zero => intro token st h; exact absurd h (by simp [property_before_element])
  | succ fuel ih =>
    intro token st h
    rw [property_before_element] at h
    rw [header_loop]
    by_cases hc : st.eof = false ∧ token ≠ "end_header"
    · rw [if_pos hc] at h
      rw [if_pos hc]
      cases hr : readToken st with
      | error e => simp only [hr] at h; exact absurd h (by simp)
      | ok p =>
        obtain ⟨tok, st1⟩ := p
        simp only [hr] at h ⊢
        by_cases h1 : tok = "comment"
        · simp only [if_pos h1] at h ⊢
          cases hs : skipLine st1 with
          | error e => simp only [hs] at h; exact absurd h (by simp)
          | ok st2 => simp only [hs] at h ⊢; exact ih tok st2 h
        · simp only [if_neg h1] at h ⊢
          by_cases h2 : tok = "element"
          · simp only [if_pos h2] at h; exact absurd h (by simp)
          · simp only [if_neg h2] at h ⊢
            by_cases h3 : tok = "property"
            · simp only [if_pos h3] at h ⊢
              cases hr1 : readToken st1 with
              | error e => simp only [hr1] at h; exact absurd h (by simp)
              | ok q =>
                obtain ⟨t1, st2⟩ := q
                simp only [hr1] at h ⊢
                by_cases h4 : t1 = "list"
                · simp only [if_pos h4] at h ⊢
                  cases hr2 : readToken st2 with
                  | error e => simp only [hr2] at h; exact absurd h (by simp)
                  | ok q2 =>
                    obtain ⟨t2, st3⟩ := q2
                    simp only [hr2] at h ⊢
                    cases hr3 : readToken st3 with
                    | error e => simp only [hr3] at h; exact absurd h (by simp)
                    | ok q3 =>
                      obtain ⟨t3, st4⟩ := q3
                      simp only [hr3] at h ⊢
                      cases hr4 : readToken st4 with
                      | error e => simp only [hr4] at h; exact absurd h (by simp)
                      | ok q4 =>
                        obtain ⟨nm, st5⟩ := q4
                        simp only [hr4]
                        simp [List.isEmpty]
                · simp only [if_neg h4] at h ⊢
                  cases hr2 : readToken st2 with
                  | error e => simp only [hr2] at h; exact absurd h (by simp)
                  | ok q2 =>
                    obtain ⟨nm, st3⟩ := q2
                    simp only [hr2]
                    simp [List.isEmpty]
            · simp only [if_neg h3] at h ⊢
              exact ih tok st1 h
    · rw [if_neg hc] at h
      exact absurd h (by simp)

/-- Claim C6: for a PLY input whose first four header tokens read
successfully and whose header then presents a complete `property` line
before any `element` line (and before `end_header` or end of stream),
the parse fails with `PLY_Expected_Element_Definition_Error` — the
parsed store is never built, so no data-section record is read — and
the whole PLY pipeline reports that same error. -/
theorem c6_property_before_element :
    ∀ (file : List Char) (fmt ver : String) (st : IStream) (sqrt : ℚ → ℚ),
    read_ply_prelude file = .ok (fmt, ver, st) →
    property_before_element (file.length + 1) ver st = true →
    read_ply_parsed file = .error .expectedElementDefinition ∧
    read_ply_triangles (α := ℚ) sqrt file = .error .expectedElementDefinition := by
  intro file fmt ver st sq hp hprop
  have hl := header_loop_property_first (file.length + 1) ver st hprop
  have hh : read_ply_header file = .error .expectedElementDefinition := by
    simp only [read_ply_header, hp, hl]
  have hparsed : read_ply_parsed file = .error .expectedElementDefinition := by
    simp only [read_ply_parsed, hh]
  exact ⟨hparsed, by simp only [read_ply_triangles, hparsed]⟩

/-- Claim C6, witness: the header `ply / format ascii 1.0 /
property float x / end_header` fails with the schema error before any
data is read. -/
theorem c6_property_before_element_witness :
    read_ply_parsed c6_file.toList = .error .expectedElementDefinition ∧
    read_ply_triangles (α := ℚ) id c6_file.toList = .error .expectedElementDefinition :=
  c6_property_before_element c6_file.toList "ascii" "1.0" ⟨c6_file.toList, 20, false⟩ id
    (by decide) (by decide)

/-! Claim C7: duplicate property names accumulate. -/

/-- Inversion: a property parse that, starting from an empty record,
produced exactly one entry `(pd.name, vs)` read exactly `vs` from the
stream. -/
theorem readPropValues_of_empty (pd : PLY_Property_Definition) (st st1 : IStream)
    (vs : List ℚ)
    (h : parse_ply_property_definition_ascii pd st [] = .ok ([(pd.name, ⟨vs⟩)], st1)) :
    readPropValues pd st = .ok (vs, st1) := by
  rw [parse_ply_property_definition_ascii] at h
  cases hr : readPropValues pd st with
  | error e => rw [hr] at h; exact absurd h (by simp)
  | ok p =>
    obtain ⟨ws, st2⟩ := p
    simp only [hr, mapFind, mapSet, Option.getD, List.nil_append, Except.ok.injEq,
      Prod.mk.injEq, List.cons.injEq, PLY_Property.mk.injEq, true_and, and_true] at h
    rw [h.1, h.2]

/-- Claim C7: when the same property name `n` is declared twice for one
element, parsing a record appends the values read for the second
declaration after the values read for the first, under the single key
`n` — the first values are not overwritten.  (`vs1` and `vs2` are
recovered by running each declaration alone on an empty record.) -/
theorem c7_duplicate_property_appends (n : String) (t1 t2 : PLYType) (st st1 st2 : IStream)
    (vs1 vs2 : List ℚ)
    (h1 : parse_ply_property_definition_ascii ⟨t1, n⟩ st [] = .ok ([(n, ⟨vs1⟩)], st1))
    (h2 : parse_ply_property_definition_ascii ⟨t2, n⟩ st1 [] = .ok ([(n, ⟨vs2⟩)], st2)) :
    parse_ply_record [⟨t1, n⟩, ⟨t2, n⟩] st [] = .ok ([(n, ⟨vs1 ++ vs2⟩)], st2) := by
  have hr1 := readPropValues_of_empty ⟨t1, n⟩ st st1 vs1 h1
  have hr2 := readPropValues_of_empty ⟨t2, n⟩ st1 st2 vs2 h2
  rw [parse_ply_record, parse_ply_property_definition_ascii]
  simp only [hr1, mapFind, mapSet, Option.getD, List.nil_append]
  rw [parse_ply_record, parse_ply_property_definition_ascii]
  simp only [hr2, mapFind, mapSet, Option.getD, if_pos rfl]
  simp [parse_ply_record]

/-- Claim C7, witness: two scalar declarations of the same name `a` over
the data `1 2` accumulate the value list `[1, 2]`. -/
theorem c7_duplicate_property_appends_witness :
    parse_ply_record [⟨.scalar, "a"⟩, ⟨.scalar, "a"⟩] c7_stream [] =
      .ok ([("a", ⟨[1, 2]⟩)], ⟨c7_stream.file, 3, true⟩) :=
  c7_duplicate_property_appends "a" .scalar .scalar c7_stream
    ⟨c7_stream.file, 1, false⟩ ⟨c7_stream.file, 3, true⟩ [1] [2]
    (by with_unfolding_all decide) (by with_unfolding_all decide)

/-! Claim C8: the derived normal. -/

/-- Component form of vector subtraction. -/
theorem Vec3.sub_def {α : Type} [Sub α] (a b : Vec3 α) :
    a - b = ⟨a.x - b.x, a.y - b.y, a.z - b.z⟩ := rfl

/-- Every triangle the face-record projection produces carries as its
normal the normalized cross product of its own edge vectors. -/
theorem projectFace_normal {α : Type} [Field α] (sqrt : α → α) (vertices : List (Vec3 α))
    (e : PLY_Element) (t : Triangle α) (h : projectFace sqrt vertices e = .ok t) :
    t.normal = Vec3.normalize sqrt ((t.v1 - t.v0).cross (t.v2 - t.v0)) := by
  rw [projectFace] at h
  split at h
  · exact absurd h (by simp)
  · split at h
    · split at h
      · exact absurd h (by simp)
      · split at h
        · exact absurd h (by simp)
        · split at h
          · exact absurd h (by simp)
          · rw [← Except.ok.inj h]
    · exact absurd h (by simp)

/-- The invariant of `projectFaces`: the normal property holds of every
triangle in the output when it holds of every triangle in the
accumulator. -/
theorem projectFaces_normal {α : Type} [Field α] (sqrt : α → α) (vertices : List (Vec3 α)) :
    ∀ (faces : List PLY_Element) (acc tris : List (Triangle α)),
    (∀ t ∈ acc, t.normal = Vec3.normalize sqrt ((t.v1 - t.v0).cross (t.v2 - t.v0))) →
    projectFaces sqrt vertices faces acc = .ok tris →
    ∀ t ∈ tris, t.normal = Vec3.normalize sqrt ((t.v1 - t.v0).cross (t.v2 - t.v0)) := by
  intro faces
  induction faces with
  | nil =>
    intro acc tris hacc h
    rw [projectFaces] at h
    rw [← Except.ok.inj h]
    exact hacc
  | cons e rest ih =>
    intro acc tris hacc h
    rw [projectFaces] at h
    cases hf : projectFace sqrt vertices e with
    | error er => rw [hf] at h; exact absurd h (by simp)
    | ok t0 =>
      simp only [hf] at h
      refine ih (acc ++ [t0]) tris ?_ h
      intro t ht
      rcases List.mem_append.mp ht with hmem | hmem
      · exact hacc t hmem
      · rw [List.mem_singleton.mp hmem]
        exact projectFace_normal sqrt vertices e t0 hf

/-- Claim C8: every triangle the PLY projector produces has as its
normal the normalized cross product of `(v1 - v0)` and `(v2 - v0)`
computed from its own vertices (over any field, for any `sqrt`
function); and, over the real numbers with the real square root, the
triangle `v0 = (0,0,0)`, `v1 = (1,0,0)`, `v2 = (0,1,0)` derives exactly
the normal `(0, 0, 1)`, which has magnitude 1 (right-hand rule). -/
theorem c8_normal_derivation :
    (∀ (α : Type) [instF : Field α], ∀ (sqrt : α → α) (store : Parsed_PLY)
      (tris : List (Triangle α)) (t : Triangle α),
      read_ply_project sqrt store = .ok tris → t ∈ tris →
      t.normal = Vec3.normalize sqrt ((t.v1 - t.v0).cross (t.v2 - t.v0))) ∧
    (Vec3.normalize Real.sqrt
        (((⟨1, 0, 0⟩ : Vec3 ℝ) - ⟨0, 0, 0⟩).cross ((⟨0, 1, 0⟩ : Vec3 ℝ) - ⟨0, 0, 0⟩)) =
      ⟨0, 0, 1⟩ ∧
      Vec3.magnitude Real.sqrt
        (Vec3.normalize Real.sqrt
          (((⟨1, 0, 0⟩ : Vec3 ℝ) - ⟨0, 0, 0⟩).cross ((⟨0, 1, 0⟩ : Vec3 ℝ) - ⟨0, 0, 0⟩))) =
        1) := by
  refine ⟨?_, ?_, ?_⟩
  · intro α instF sqrt store tris t h ht
    rw [read_ply_project] at h
    split at h
    · exact absurd h (by simp)
    · split at h
      · exact absurd h (by simp)
      · split at h
        · exact absurd h (by simp)
        · exact projectFaces_normal sqrt _ _ [] tris (by simp) h t ht
  · norm_num [Vec3.normalize, Vec3.magnitude, Vec3.cross, Vec3.sub_def, Real.sqrt_one]
  · norm_num [Vec3.normalize, Vec3.magnitude, Vec3.cross, Vec3.sub_def, Real.sqrt_one]

/-- Claim C8, witness: the projector run on the unit-triangle store over
`ℚ` (with the identity standing in for the square root, exact here since
the squared magnitude is 1) produces the triangle whose normal is the
normalized cross product of its edges. -/
theorem c8_normal_derivation_witness :
    (⟨⟨0, 0, 1⟩, ⟨0, 0, 0⟩, ⟨1, 0, 0⟩, ⟨0, 1, 0⟩⟩ : Triangle ℚ).normal =
      Vec3.normalize id
        (((⟨⟨0, 0, 1⟩, ⟨0, 0, 0⟩, ⟨1, 0, 0⟩, ⟨0, 1, 0⟩⟩ : Triangle ℚ).v1 -
            (⟨⟨0, 0, 1⟩, ⟨0, 0, 0⟩, ⟨1, 0, 0⟩, ⟨0, 1, 0⟩⟩ : Triangle ℚ).v0).cross
          ((⟨⟨0, 0, 1⟩, ⟨0, 0, 0⟩, ⟨1, 0, 0⟩, ⟨0, 1, 0⟩⟩ : Triangle ℚ).v2 -
            (⟨⟨0, 0, 1⟩, ⟨0, 0, 0⟩, ⟨1, 0, 0⟩, ⟨0, 1, 0⟩⟩ : Triangle ℚ).v0)) :=
  c8_normal_derivation.1 ℚ id c8_store [⟨⟨0, 0, 1⟩, ⟨0, 0, 0⟩, ⟨1, 0, 0⟩, ⟨0, 1, 0⟩⟩]
    ⟨⟨0, 0, 1⟩, ⟨0, 0, 0⟩, ⟨1, 0, 0⟩, ⟨0, 1, 0⟩⟩
    (by with_unfolding_all decide) (by decide)

/-! Claim C10: non-ascii declared formats. -/

/-- Claim C10: whenever the header parses with a declared format other
than exactly `"ascii"`, the data stage is skipped — the parsed store is
empty and the stream is left where the header ended — and the projector
then fails with the `std::out_of_range` lookup of the missing `vertex`
element, so such a run never reports a triangle count. -/
theorem c10_non_ascii_format :
    ∀ (file : List Char) (fmt : String) (eds : List PLY_Element_Definition)
      (st1 : IStream) (sqrt : ℚ → ℚ),
    read_ply_header file = .ok (fmt, eds, st1) → fmt ≠ "ascii" →
    read_ply_parsed file = .ok (⟨[]⟩, st1) ∧
    read_ply_triangles (α := ℚ) sqrt file = .error (.outOfRange "vertex") := by
  intro file fmt eds st1 sq hh hfmt
  have hparsed : read_ply_parsed file = .ok (⟨[]⟩, st1) := by
    simp only [read_ply_parsed, hh, if_neg hfmt]
  refine ⟨hparsed, ?_⟩
  simp only [read_ply_triangles, hparsed]
  rfl

/-- Claim C10, witness: a `binary_little_endian` file parses its header,
skips the data section (the store stays empty at stream position 80,
right after `end_header`), and fails on the `vertex` lookup. -/
theorem c10_non_ascii_format_witness :
    read_ply_parsed c10_file.toList = .ok (⟨[]⟩, ⟨c10_file.toList, 80, false⟩) ∧
    read_ply_triangles (α := ℚ) id c10_file.toList = .error (.outOfRange "vertex") :=
  c10_non_ascii_format c10_file.toList "binary_little_endian"
    [⟨"vertex", 1, [⟨.scalar, "x"⟩]⟩] ⟨c10_file.toList, 80, false⟩ id
    (by decide) (by decide)
